import Mathlib

set_option maxHeartbeats 1000000

/-!
Shallow embedding of the configuration subsystem of the AI Documenter CLI
(`src/classes/config.ts`): the layered `ConfigBuilder`, the provider-specific
validation, the config-file search of `ConfigManager.loadFromFiles`, and the
manager's cache lifecycle (`loadConfig` / `getConfig` / `reset`), together with
the display/logging projections `getConfigSummary` and
`sanitizeConfigForLogging`.

JavaScript specifics are modelled explicitly: object spread `\x7b...a, ...b\x7d`
becomes a field-wise right-biased merge on option-valued fields; string
truthiness (`if (s)`) treats the empty string like `undefined`; `parseInt(s, 10)`
is modelled with its leading-prefix semantics.

The schema validator (`src/helpers/validation.ts`) and the error class module
are not part of the visible sources; the definitions that stand in for them are
modelled from the specification and are marked as such in their doc comments.
-/

/-- The provider discriminant: the closed set of recognized LLM providers
(`'openai' | 'lmstudio'` in the TypeScript types). -/
inductive Provider where
  | openai
  | lmstudio
deriving DecidableEq, Repr

/-- The string identifier of a provider, as it appears in the TypeScript
union type and in display output. -/
def Provider.toStr : Provider → String
  | .openai => "openai"
  | .lmstudio => "lmstudio"

/-- A partial configuration: any subset of the `DocumenterConfig` attributes.
`none` models an absent key of the TypeScript `Partial<DocumenterConfig>`
object. Numeric fields carry integers (JavaScript numbers produced by
`parseInt` or taken from a parsed config file). -/
structure PartialConfig where
  provider : Option Provider := none
  openai_api_key : Option String := none
  openai_model : Option String := none
  lmstudio_endpoint : Option String := none
  lmstudio_model : Option String := none
  max_conversation_history : Option Int := none
  default_output_dir : Option String := none
  timeout : Option Int := none
deriving DecidableEq, Repr

/-- JavaScript object spread `\x7b ...a, ...b \x7d` restricted to the
`DocumenterConfig` keys: every key present in `b` overwrites the value from
`a`; keys absent from `b` keep the value from `a` (whole-field replacement,
no deep merging). -/
def spread (a b : PartialConfig) : PartialConfig where
  provider := b.provider <|> a.provider
  openai_api_key := b.openai_api_key <|> a.openai_api_key
  openai_model := b.openai_model <|> a.openai_model
  lmstudio_endpoint := b.lmstudio_endpoint <|> a.lmstudio_endpoint
  lmstudio_model := b.lmstudio_model <|> a.lmstudio_model
  max_conversation_history := b.max_conversation_history <|> a.max_conversation_history
  default_output_dir := b.default_output_dir <|> a.default_output_dir
  timeout := b.timeout <|> a.timeout

/-- The built-in defaults of `ConfigBuilder.withDefaults` (the
`DefaultDocumenterConfig` literal in the source: every field except the API
key). -/
def defaults : PartialConfig where
  provider := some .openai
  openai_api_key := none
  openai_model := some "gpt-4o-mini"
  lmstudio_endpoint := some "http://localhost:1234/v1"
  lmstudio_model := some "local-model"
  max_conversation_history := some 10
  default_output_dir := some "./docs"
  timeout := some 3600000

/-- The process environment restricted to the recognized variables read by
`ConfigBuilder.withEnvironment`. `none` models an unset variable; `some s`
a variable set to the string `s` (possibly empty). -/
structure Env where
  LLM_PROVIDER : Option String := none
  OPENAI_API_KEY : Option String := none
  OPENAI_MODEL : Option String := none
  LMSTUDIO_ENDPOINT : Option String := none
  LMSTUDIO_MODEL : Option String := none
  MAX_CONVERSATION_HISTORY : Option String := none
  DEFAULT_OUTPUT_DIR : Option String := none
  LLM_TIMEOUT : Option String := none
deriving DecidableEq, Repr

/-- JavaScript truthiness of an optional string, as used in
`if (process.env.X)` guards: an unset variable and a variable set to the
empty string are both falsy. -/
def truthyEnv : Option String → Option String
  | some s => if s.isEmpty then none else some s
  | none => none

/-- JavaScript string truthiness as a boolean (`!!s`): `undefined` and the
empty string are falsy, every other string is truthy. -/
def strTruthy : Option String → Bool
  | some s => !s.isEmpty
  | none => false

/-- Whitespace skipped by JavaScript `parseInt` before reading digits. -/
def jsWhitespace (c : Char) : Bool :=
  c = ' ' || c = '\t' || c = '\n' || c = '\r' || c = '\x0b' || c = '\x0c'

/-- Value of a non-empty list of leading decimal digits. -/
def digitsValue (ds : List Char) : Nat :=
  ds.foldl (fun n c => n * 10 + (c.toNat - 48)) 0

/-- The longest (possibly empty) prefix of decimal digits. -/
def leadingDigits (cs : List Char) : List Char :=
  cs.takeWhile (·.isDigit)

/-- Interpret the leading digit prefix, `none` when there is no digit
(`parseInt` returns `NaN`). -/
def digitsPrefixValue (cs : List Char) : Option Nat :=
  if (leadingDigits cs).isEmpty then none else some (digitsValue (leadingDigits cs))

/-- JavaScript `parseInt(s, 10)`: skip leading whitespace, read an optional
sign, then the longest prefix of decimal digits; `NaN` (here `none`) when no
digit follows. -/
def jsParseInt (s : String) : Option Int :=
  match s.toList.dropWhile jsWhitespace with
  | '-' :: rest => (digitsPrefixValue rest).map (fun n => -(n : Int))
  | '+' :: rest => (digitsPrefixValue rest).map (fun n => (n : Int))
  | rest => (digitsPrefixValue rest).map (fun n => (n : Int))

/-- A positive-integer environment value as accepted by `withEnvironment`:
`parseInt` succeeds and the value is strictly positive; otherwise the
variable is silently ignored. -/
def positiveIntEnv (v : Option String) : Option Int :=
  (truthyEnv v).bind fun s =>
    match jsParseInt s with
    | some value => if value > 0 then some value else none
    | none => none

/-- The partial configuration `envConfig` assembled by
`ConfigBuilder.withEnvironment` from the recognized environment variables:
each field is set only when the variable is set, truthy, and (where a
number or a provider name is expected) well-formed. -/
def envPartial (e : Env) : PartialConfig where
  provider :=
    (truthyEnv e.LLM_PROVIDER).bind fun s =>
      let p := s.toLower
      if p = "openai" then some .openai
      else if p = "lmstudio" then some .lmstudio
      else none
  openai_api_key := truthyEnv e.OPENAI_API_KEY
  openai_model := truthyEnv e.OPENAI_MODEL
  lmstudio_endpoint := truthyEnv e.LMSTUDIO_ENDPOINT
  lmstudio_model := truthyEnv e.LMSTUDIO_MODEL
  max_conversation_history := positiveIntEnv e.MAX_CONVERSATION_HISTORY
  default_output_dir := truthyEnv e.DEFAULT_OUTPUT_DIR
  timeout := positiveIntEnv e.LLM_TIMEOUT

/-- The single error kind of the subsystem: `ConfigurationError` with its
human-readable message (the structured context bag carries only diagnostic
data and is omitted). -/
structure ConfigurationError where
  message : String
deriving DecidableEq, Repr

/-- The accumulator of the fluent builder (`private config:
Partial<DocumenterConfig>` in class `ConfigBuilder`). -/
structure ConfigBuilder where
  config : PartialConfig := {}
deriving DecidableEq, Repr

/-- Method `ConfigBuilder.withDefaults`: spread the built-in defaults over the
accumulator. -/
def ConfigBuilder.withDefaults (b : ConfigBuilder) : ConfigBuilder :=
  ⟨spread b.config defaults⟩

/-- Method `ConfigBuilder.withEnvironment`: spread the environment-derived partial
configuration over the accumulator. -/
def ConfigBuilder.withEnvironment (b : ConfigBuilder) (e : Env) : ConfigBuilder :=
  ⟨spread b.config (envPartial e)⟩

/-- Method `ConfigBuilder.withFile`: spread a file-derived partial configuration
over the accumulator. -/
def ConfigBuilder.withFile (b : ConfigBuilder) (fileConfig : PartialConfig) : ConfigBuilder :=
  ⟨spread b.config fileConfig⟩

/-- The resolved, validated configuration (`DocumenterConfig` after the
final-mode schema check): every defaulted field is present; only the API
key remains optional. -/
structure DocumenterConfig where
  provider : Provider
  openai_api_key : Option String
  openai_model : String
  lmstudio_endpoint : String
  lmstudio_model : String
  max_conversation_history : Int
  default_output_dir : String
  timeout : Int
deriving DecidableEq, Repr

/-- Modelled from the spec: the WHATWG `URL` constructor used by
`validateProviderRequirements` (`new URL(endpoint)` inside `try/catch`); the
platform builtin is not repository code. A string parses as a URL when it
starts with a scheme — an ASCII letter followed by letters, digits, `+`, `-`
or `.` — terminated by a colon. The empty string and strings without a
colon-terminated scheme (such as `not a url`) do not parse. -/
def canParseURL (s : String) : Bool :=
  match s.toList with
  | [] => false
  | c :: rest =>
    c.isAlpha &&
      ((rest.dropWhile fun d => d.isAlphanum || d = '+' || d = '-' || d = '.').head? = some ':')

/-- Modelled from the spec: `validateConfig(DocumenterConfigSchema, config,
'final')` from the missing `src/helpers/validation.ts` — final-mode schema
validation requires full well-formedness: the provider and every defaulted
field present and well-typed, the two numeric fields positive integers; the
API key stays optional. On success it returns the fully-typed configuration,
otherwise it raises a `ConfigurationError` listing the violations. -/
def validateConfigFinal (c : PartialConfig) : Except ConfigurationError DocumenterConfig :=
  match c.provider, c.openai_model, c.lmstudio_endpoint, c.lmstudio_model,
      c.max_conversation_history, c.default_output_dir, c.timeout with
  | some p, some om, some le, some lm, some mh, some od, some t =>
    if mh > 0 && t > 0 then
      .ok ⟨p, c.openai_api_key, om, le, lm, mh, od, t⟩
    else
      .error ⟨"Configuration validation failed (final): numeric fields must be positive"⟩
  | _, _, _, _, _, _, _ =>
    .error ⟨"Configuration validation failed (final): missing required fields"⟩

/-- The message of the `ConfigurationError` raised when the OpenAI provider
is selected without an API key. -/
def openaiKeyRequiredMsg : String :=
  "OpenAI API key is required when using OpenAI provider. " ++
    "Set OPENAI_API_KEY environment variable or add it to your config file."

/-- The message of the `ConfigurationError` raised for an unparseable
LMStudio endpoint, naming the offending string. -/
def invalidEndpointMsg (endpoint : String) : String :=
  "Invalid LMStudio endpoint URL: " ++ endpoint

/-- Method `ConfigBuilder.validateProviderRequirements`: the provider-specific
checks run at the end of `build()`. The two `if` statements of the source
are sequential, but the first throws, so nesting them as alternatives is
equivalent. -/
def validateProviderRequirements (config : DocumenterConfig) : Except ConfigurationError Unit :=
  if config.provider = .openai && !strTruthy config.openai_api_key then
    .error ⟨openaiKeyRequiredMsg⟩
  else if config.provider = .lmstudio then
    if !config.lmstudio_endpoint.isEmpty then
      if canParseURL config.lmstudio_endpoint then .ok ()
      else .error ⟨invalidEndpointMsg config.lmstudio_endpoint⟩
    else .ok ()
  else .ok ()

/-- Method `ConfigBuilder.build`: require a provider, run final-mode schema
validation, then the provider-specific checks; return the validated
configuration. -/
def ConfigBuilder.build (b : ConfigBuilder) : Except ConfigurationError DocumenterConfig :=
  if b.config.provider.isNone then
    .error ⟨"Provider must be specified"⟩
  else
    match validateConfigFinal b.config with
    | .error e => .error e
    | .ok validatedConfig =>
      match validateProviderRequirements validatedConfig with
      | .error e => .error e
      | .ok _ => .ok validatedConfig

/-- What the file system holds at one candidate config path, abstracted at
the boundaries `fs.readFile` / `JSON.parse` / file-mode `validateConfig`
(the last is modelled from the spec, `src/helpers/validation.ts` being
outside the visible sources):
* `missing` — `readFile` rejects with ENOENT (a plain `Error`);
* `ioFailure` — `readFile` rejects with any other I/O error, e.g. EACCES
  for an unreadable file (also a plain `Error`, not a `SyntaxError`);
* `badJson msg` — the file reads but `JSON.parse` throws a `SyntaxError`
  with message `msg`;
* `badStructure msg` — the file parses but file-mode validation fails with
  message `msg`;
* `parsed cfg` — the file reads, parses and validates to the partial
  configuration `cfg`. -/
inductive FileOutcome where
  | missing
  | ioFailure
  | badJson (msg : String)
  | badStructure (msg : String)
  | parsed (cfg : PartialConfig)
deriving DecidableEq, Repr

/-- Method `ConfigManager.loadFromFiles` over the ordered candidate list (each
candidate is a path paired with what the file system holds there). The
source's `for`/`try`/`catch`: a validation failure is wrapped into a
`ConfigurationError` naming the path and rethrown by the outer catch; a
`SyntaxError` from `JSON.parse` is wrapped likewise; every other error
(missing file, other I/O failure) falls through to the next candidate; when
no candidate yields a configuration, the empty partial is returned. -/
def loadFromFiles : List (String × FileOutcome) → Except ConfigurationError PartialConfig
  | [] => .ok {}
  | (configPath, outcome) :: rest =>
    match outcome with
    | .parsed cfg => .ok cfg
    | .badStructure msg =>
      .error ⟨"Invalid configuration in " ++ configPath ++ ": " ++ msg⟩
    | .badJson msg =>
      .error ⟨"Invalid JSON in configuration file " ++ configPath ++ ": " ++ msg⟩
    | .missing => loadFromFiles rest
    | .ioFailure => loadFromFiles rest

/-- The external world a `loadConfig` call observes: the process environment
after `loadEnvConfig` has run dotenv (a side effect folded into `env`), and
the file-system contents at the two candidate config paths in the working
directory. -/
structure World where
  env : Env
  files : List (String × FileOutcome)
deriving DecidableEq, Repr

/-- The cache of a `ConfigManager` instance (`private config:
DocumenterConfig | null`): `none` is the UNLOADED state, `some` the LOADED
state. -/
structure ConfigManager where
  config : Option DocumenterConfig := none
deriving DecidableEq, Repr

/-- The pure result of one `loadConfig` run against a world: read the file
layer, then assemble defaults → environment → file and build. -/
def loadConfigResult (w : World) : Except ConfigurationError DocumenterConfig :=
  match loadFromFiles w.files with
  | .error e => .error e
  | .ok fileConfig =>
    ((ConfigBuilder.mk {}).withDefaults.withEnvironment w.env |>.withFile fileConfig).build

/-- Method `ConfigManager.loadConfig`: on success the cache is overwritten with the
new configuration; on failure the error propagates and the cache field is
left exactly as it was (`this.config = config` is only reached on success). -/
def ConfigManager.loadConfig (m : ConfigManager) (w : World) :
    Except ConfigurationError DocumenterConfig × ConfigManager :=
  match loadConfigResult w with
  | .ok cfg => (.ok cfg, ⟨some cfg⟩)
  | .error e => (.error e, m)

/-- Method `ConfigManager.getConfig`: return the cached configuration when present,
otherwise delegate to `loadConfig`. -/
def ConfigManager.getConfig (m : ConfigManager) (w : World) :
    Except ConfigurationError DocumenterConfig × ConfigManager :=
  match m.config with
  | some cfg => (.ok cfg, m)
  | none => m.loadConfig w

/-- Method `ConfigManager.reset`: unconditionally clear the cache. -/
def ConfigManager.reset (_ : ConfigManager) : ConfigManager := ⟨none⟩

/-- The display-safe projection returned by `getConfigSummary`. -/
structure ConfigSummary where
  provider : String
  model : String
  endpoint : Option String
  workingDir : String
deriving DecidableEq, Repr

/-- The pure projection computed by `ConfigManager.getConfigSummary` from a
configuration and the working directory: provider, effective model chosen by
provider branch, working directory, and the endpoint only when the provider
is lmstudio and the endpoint is truthy. (The source's `config.provider ||
'openai'` and model fallbacks can only take their left branch here, the
configuration being validated and the model fields non-optional strings with
JS `||` firing solely on the empty string.) -/
def configSummary (config : DocumenterConfig) (workingDir : String) : ConfigSummary where
  provider := if (config.provider.toStr).isEmpty then "openai" else config.provider.toStr
  model :=
    if config.provider = .lmstudio then
      if config.lmstudio_model.isEmpty then "local-model" else config.lmstudio_model
    else
      if config.openai_model.isEmpty then "gpt-4o-mini" else config.openai_model
  endpoint :=
    if config.provider = .lmstudio && !config.lmstudio_endpoint.isEmpty then
      some config.lmstudio_endpoint
    else none
  workingDir := workingDir

/-- Method `ConfigManager.getConfigSummary`: obtain the configuration through
`getConfig` (loading if needed) and project it. -/
def ConfigManager.getConfigSummary (m : ConfigManager) (w : World) (workingDir : String) :
    Except ConfigurationError ConfigSummary × ConfigManager :=
  match m.getConfig w with
  | (.ok cfg, m2) => (.ok (configSummary cfg workingDir), m2)
  | (.error e, m2) => (.error e, m2)

/-- The fixed redaction marker. -/
def redactionMarker : String := "[REDACTED]"

/-- Method `ConfigManager.sanitizeConfigForLogging`: shallow-copy the configuration
and overwrite a truthy API key with the redaction marker; an absent or empty
key is left as-is. The method never touches `this`, so it is modelled as a
pure function of the configuration alone. -/
def sanitizeConfigForLogging (config : DocumenterConfig) : DocumenterConfig :=
  if strTruthy config.openai_api_key then
    { config with openai_api_key := some redactionMarker }
  else
    config

/-- The guard `!isNaN(value) && value > 0` applied by `withEnvironment` to a
numeric environment variable: `parseInt` succeeds and yields a strictly
positive value. -/
def wellFormedPositive (s : String) : Bool :=
  match jsParseInt s with
  | some v => v > 0
  | none => false

/-- An environment with only `OPENAI_API_KEY` set (the spec's scenario
`OPENAI_API_KEY=sk-test`, no config file). -/
def exampleEnvOpenai : Env := { OPENAI_API_KEY := some "sk-test" }

/-- The configuration resolved from `exampleEnvOpenai` over defaults. -/
def exampleOpenaiConfig : DocumenterConfig :=
  ⟨.openai, some "sk-test", "gpt-4o-mini", "http://localhost:1234/v1", "local-model",
    10, "./docs", 3600000⟩

/-- The builder accumulator of the standard pipeline run against
`exampleEnvOpenai` and an empty file partial. -/
def openaiBuilder : ConfigBuilder :=
  ((ConfigBuilder.mk {}).withDefaults.withEnvironment exampleEnvOpenai).withFile {}

/-- A previously loaded (now possibly stale) configuration. -/
def staleConfig : DocumenterConfig :=
  ⟨.openai, some "sk-old", "gpt-4o-mini", "http://localhost:1234/v1", "local-model",
    10, "./docs", 3600000⟩

/-- A manager in the LOADED state holding `staleConfig`. -/
def loadedManager : ConfigManager := ⟨some staleConfig⟩

/-- A world whose first candidate config file contains invalid JSON. -/
def badJsonWorld : World :=
  ⟨{}, [("/work/.documenter.json", .badJson "Unexpected token")]⟩

/-- A file partial selecting lmstudio and explicitly setting the endpoint to
the empty string (a plain string, accepted by the partial-tolerant file-mode
schema check). -/
def emptyEndpointFile : PartialConfig :=
  { provider := some .lmstudio, lmstudio_endpoint := some "" }

/-- The configuration `build()` resolves from `emptyEndpointFile` over the
defaults: provider lmstudio with an empty endpoint. -/
def emptyEndpointConfig : DocumenterConfig :=
  ⟨.lmstudio, none, "gpt-4o-mini", "", "local-model", 10, "./docs", 3600000⟩

/-- A file partial selecting lmstudio and nothing else. -/
def lmstudioFile : PartialConfig := { provider := some .lmstudio }

/-- The builder accumulator for `lmstudioFile` over defaults with an empty
environment. -/
def lmstudioBuilder : ConfigBuilder :=
  ((ConfigBuilder.mk {}).withDefaults.withEnvironment {}).withFile lmstudioFile

/-- The configuration resolved from `lmstudioFile` over the defaults. -/
def lmstudioDefaultConfig : DocumenterConfig :=
  ⟨.lmstudio, none, "gpt-4o-mini", "http://localhost:1234/v1", "local-model",
    10, "./docs", 3600000⟩

/-- An environment in which every recognized variable is set to the empty
string. -/
def allEmptyEnv : Env :=
  { LLM_PROVIDER := some "", OPENAI_API_KEY := some "", OPENAI_MODEL := some "",
    LMSTUDIO_ENDPOINT := some "", LMSTUDIO_MODEL := some "",
    MAX_CONVERSATION_HISTORY := some "", DEFAULT_OUTPUT_DIR := some "",
    LLM_TIMEOUT := some "" }

/-- An environment with malformed numeric variables: a non-numeric history
limit and a negative timeout. -/
def malformedNumericEnv : Env :=
  { MAX_CONVERSATION_HISTORY := some "abc", LLM_TIMEOUT := some "-5" }

/-! Helper lemmas shared by the claim theorems. -/

/-- Right identity of option fallback. -/
theorem orElse_none_right {α : Type} (o : Option α) : (o <|> none) = o := by
  cases o <;> rfl

/-- Left identity of option fallback. -/
theorem none_orElse_left {α : Type} (o : Option α) : ((none : Option α) <|> o) = o := rfl

/-- The accumulator of the standard pipeline is the three layers spread in
order over the empty object. -/
theorem pipeline_config (e : Env) (f : PartialConfig) :
    (((ConfigBuilder.mk {}).withDefaults.withEnvironment e).withFile f).config =
      spread (spread defaults (envPartial e)) f := rfl

/-- Final-mode validation succeeds only by returning exactly the accumulated
field values. -/
theorem validateConfigFinal_ok_fields (c : PartialConfig) (cfg : DocumenterConfig)
    (h : validateConfigFinal c = .ok cfg) :
    c.provider = some cfg.provider ∧ c.openai_api_key = cfg.openai_api_key ∧
    c.openai_model = some cfg.openai_model ∧ c.lmstudio_endpoint = some cfg.lmstudio_endpoint ∧
    c.lmstudio_model = some cfg.lmstudio_model ∧
    c.max_conversation_history = some cfg.max_conversation_history ∧
    c.default_output_dir = some cfg.default_output_dir ∧ c.timeout = some cfg.timeout := by
  rcases c with ⟨p, k, om, le, lm, mh, od, t⟩
  cases p <;> cases om <;> cases le <;> cases lm <;> cases mh <;> cases od <;> cases t <;>
    simp [validateConfigFinal] at h
  split at h
  · injection h with h2
    subst h2
    simp
  · exact absurd h (by simp)

/-- A successful `build` decomposes into a successful final validation and a
successful provider-requirements check. -/
theorem build_ok_parts (b : ConfigBuilder) (cfg : DocumenterConfig) (h : b.build = .ok cfg) :
    validateConfigFinal b.config = .ok cfg ∧ validateProviderRequirements cfg = .ok () := by
  unfold ConfigBuilder.build at h
  split at h
  · exact absurd h (by simp)
  · cases hval : validateConfigFinal b.config <;> simp only [hval] at h
    · exact absurd h (by simp)
    · rename_i v
      cases hreq : validateProviderRequirements v <;> simp only [hreq] at h
      · exact absurd h (by simp)
      · rename_i u
        simp only [Except.ok.injEq] at h
        subst h
        cases u
        exact ⟨rfl, hreq⟩

/-- Builder method `build` succeeds with the validated configuration when both checks pass. -/
theorem build_eq_ok (b : ConfigBuilder) (v : DocumenterConfig)
    (hval : validateConfigFinal b.config = .ok v)
    (hreq : validateProviderRequirements v = .ok ()) : b.build = .ok v := by
  have hp : b.config.provider = some v.provider := (validateConfigFinal_ok_fields _ _ hval).1
  unfold ConfigBuilder.build
  simp [hp, hval, hreq]

/-- Builder method `build` propagates a provider-requirements failure once final validation
has passed. -/
theorem build_eq_error (b : ConfigBuilder) (v : DocumenterConfig) (err : ConfigurationError)
    (hval : validateConfigFinal b.config = .ok v)
    (hreq : validateProviderRequirements v = .error err) : b.build = .error err := by
  have hp : b.config.provider = some v.provider := (validateConfigFinal_ok_fields _ _ hval).1
  unfold ConfigBuilder.build
  simp [hp, hval, hreq]

/-- The openai branch of the provider-specific checks: a falsy API key under
the openai provider yields exactly the instructing error. -/
theorem vpr_openai_missing_key (v : DocumenterConfig) (h1 : v.provider = .openai)
    (h2 : strTruthy v.openai_api_key = false) :
    validateProviderRequirements v = .error ⟨openaiKeyRequiredMsg⟩ := by
  unfold validateProviderRequirements
  simp [h1, h2]

/-- The lmstudio branch of the provider-specific checks: a truthy endpoint
that does not parse as a URL yields exactly the naming error. -/
theorem vpr_lmstudio_bad_endpoint (v : DocumenterConfig) (h1 : v.provider = .lmstudio)
    (h2 : v.lmstudio_endpoint.isEmpty = false) (h3 : canParseURL v.lmstudio_endpoint = false) :
    validateProviderRequirements v = .error ⟨invalidEndpointMsg v.lmstudio_endpoint⟩ := by
  unfold validateProviderRequirements
  simp [h1, h2, h3]

/-- Outside the two failing branches the provider-specific checks pass. -/
theorem vpr_ok (v : DocumenterConfig)
    (h1 : ¬(v.provider = .openai ∧ strTruthy v.openai_api_key = false))
    (h2 : ¬(v.provider = .lmstudio ∧ v.lmstudio_endpoint.isEmpty = false ∧
           canParseURL v.lmstudio_endpoint = false)) :
    validateProviderRequirements v = .ok () := by
  unfold validateProviderRequirements
  cases hv : v.provider
  · have hk : strTruthy v.openai_api_key = true := by
      rcases hb : strTruthy v.openai_api_key
      · exact absurd ⟨hv, hb⟩ h1
      · rfl
    simp [hk]
  · rcases he : v.lmstudio_endpoint.isEmpty
    · have hu : canParseURL v.lmstudio_endpoint = true := by
        rcases hb : canParseURL v.lmstudio_endpoint
        · exact absurd ⟨hv, he, hb⟩ h2
        · rfl
      simp [he, hu]
    · simp [he]

/-! Claim theorems. -/

/-- C1: Precedence of layers is strict left-to-right overwriting. For every
configuration built by the standard pipeline (defaults, then environment,
then file), each field of the result equals the value from the
highest-precedence layer defining it — file over environment over defaults,
whole-field replacement only — and every field absent from both the file
partial and the recognized environment variables equals the built-in default
exactly (the API key, which has no default, is file over environment). -/
theorem precedence_left_to_right (e : Env) (f : PartialConfig) (cfg : DocumenterConfig)
    (hbuild : ((((ConfigBuilder.mk {}).withDefaults.withEnvironment e).withFile f).build) = .ok cfg) :
    some cfg.provider = (f.provider <|> (envPartial e).provider <|> some Provider.openai) ∧
    cfg.openai_api_key = (f.openai_api_key <|> (envPartial e).openai_api_key) ∧
    some cfg.openai_model = (f.openai_model <|> (envPartial e).openai_model <|> some "gpt-4o-mini") ∧
    some cfg.lmstudio_endpoint =
      (f.lmstudio_endpoint <|> (envPartial e).lmstudio_endpoint <|> some "http://localhost:1234/v1") ∧
    some cfg.lmstudio_model =
      (f.lmstudio_model <|> (envPartial e).lmstudio_model <|> some "local-model") ∧
    some cfg.max_conversation_history =
      (f.max_conversation_history <|> (envPartial e).max_conversation_history <|> some 10) ∧
    some cfg.default_output_dir =
      (f.default_output_dir <|> (envPartial e).default_output_dir <|> some "./docs") ∧
    some cfg.timeout = (f.timeout <|> (envPartial e).timeout <|> some 3600000) := by
  have hfields := validateConfigFinal_ok_fields _ _ (build_ok_parts _ _ hbuild).1
  rw [pipeline_config] at hfields
  simp only [spread, defaults] at hfields
  obtain ⟨h1, h2, h3, h4, h5, h6, h7, h8⟩ := hfields
  rw [orElse_none_right] at h2
  exact ⟨h1.symm, h2.symm, h3.symm, h4.symm, h5.symm, h6.symm, h7.symm, h8.symm⟩

/-- C1 witness: with only `OPENAI_API_KEY=sk-test` in the environment and no
file partial, the pipeline builds successfully and the provider is the
default. -/
theorem precedence_left_to_right_witness :
    some exampleOpenaiConfig.provider =
      (({} : PartialConfig).provider <|> (envPartial exampleEnvOpenai).provider <|>
        some Provider.openai) :=
  (precedence_left_to_right exampleEnvOpenai {} exampleOpenaiConfig rfl).1

/-- C2: For every accumulated configuration passing final-mode schema
validation, `build()` throws a `ConfigurationError` if and only if either
the provider is openai and the API key is absent or empty (with the message
instructing the user to set it via environment variable or config file), or
the provider is lmstudio and the endpoint is present (truthy) but does not
parse as a URL (with the message naming the offending endpoint); in all
other cases `build()` returns the validated configuration — no other
provider-conditional check exists. -/
theorem build_error_conditions (b : ConfigBuilder) (v : DocumenterConfig)
    (hval : validateConfigFinal b.config = .ok v) :
    ((∃ err, b.build = .error err) ↔
      ((v.provider = .openai ∧ strTruthy v.openai_api_key = false) ∨
       (v.provider = .lmstudio ∧ v.lmstudio_endpoint.isEmpty = false ∧
         canParseURL v.lmstudio_endpoint = false))) ∧
    (v.provider = .openai → strTruthy v.openai_api_key = false →
      b.build = .error ⟨openaiKeyRequiredMsg⟩) ∧
    (v.provider = .lmstudio → v.lmstudio_endpoint.isEmpty = false →
      canParseURL v.lmstudio_endpoint = false →
      b.build = .error ⟨invalidEndpointMsg v.lmstudio_endpoint⟩) ∧
    (¬((v.provider = .openai ∧ strTruthy v.openai_api_key = false) ∨
       (v.provider = .lmstudio ∧ v.lmstudio_endpoint.isEmpty = false ∧
         canParseURL v.lmstudio_endpoint = false)) →
      b.build = .ok v) := by
  have hko : v.provider = .openai → strTruthy v.openai_api_key = false →
      b.build = .error ⟨openaiKeyRequiredMsg⟩ := fun h1 h2 =>
    build_eq_error b v _ hval (vpr_openai_missing_key v h1 h2)
  have hkl : v.provider = .lmstudio → v.lmstudio_endpoint.isEmpty = false →
      canParseURL v.lmstudio_endpoint = false →
      b.build = .error ⟨invalidEndpointMsg v.lmstudio_endpoint⟩ := fun h1 h2 h3 =>
    build_eq_error b v _ hval (vpr_lmstudio_bad_endpoint v h1 h2 h3)
  have hok : ¬((v.provider = .openai ∧ strTruthy v.openai_api_key = false) ∨
      (v.provider = .lmstudio ∧ v.lmstudio_endpoint.isEmpty = false ∧
        canParseURL v.lmstudio_endpoint = false)) → b.build = .ok v := by
    intro hn
    rw [not_or] at hn
    exact build_eq_ok b v hval (vpr_ok v hn.1 hn.2)
  refine ⟨⟨?_, ?_⟩, hko, hkl, hok⟩
  · rintro ⟨err, herr⟩
    by_contra hn
    rw [hok hn] at herr
    exact absurd herr (by simp)
  · rintro (⟨h1, h2⟩ | ⟨h1, h2, h3⟩)
    · exact ⟨_, hko h1 h2⟩
    · exact ⟨_, hkl h1 h2 h3⟩

/-- C2 witness: the accumulator resolved from `OPENAI_API_KEY=sk-test` over
defaults passes validation and `build` returns it (neither failing branch
applies). -/
theorem build_error_conditions_witness : openaiBuilder.build = .ok exampleOpenaiConfig :=
  (build_error_conditions openaiBuilder exampleOpenaiConfig rfl).2.2.2 (by decide)

/-- C3 counterexample: a non-ENOENT I/O failure at the first candidate (an
unreadable file raises a plain `Error`, not a `SyntaxError`) is swallowed by
the catch-all and falls through; with the second candidate missing, the
search returns the empty partial instead of surfacing a
`ConfigurationError`. -/
theorem loadFromFiles_ioFailure_not_fatal :
    loadFromFiles [("/work/.documenter.json", FileOutcome.ioFailure),
        ("/work/documenter.config.json", FileOutcome.missing)] = .ok {} := rfl

/-- C3 (amended): in the config-file search, a missing file or any other
non-parse I/O failure (e.g. an unreadable file) causes fallthrough to the
next candidate; a JSON syntax failure or a file-mode validation failure is
fatal to the whole load, surfacing as a `ConfigurationError` carrying the
offending path; a parsed and validated candidate wins immediately; and when
no candidate yields a configuration the empty partial is returned. -/
theorem loadFromFiles_fallthrough_and_errors (p : String)
    (rest : List (String × FileOutcome)) :
    (∀ msg, loadFromFiles ((p, FileOutcome.badJson msg) :: rest) =
      .error ⟨"Invalid JSON in configuration file " ++ p ++ ": " ++ msg⟩) ∧
    (∀ msg, loadFromFiles ((p, FileOutcome.badStructure msg) :: rest) =
      .error ⟨"Invalid configuration in " ++ p ++ ": " ++ msg⟩) ∧
    (loadFromFiles ((p, FileOutcome.missing) :: rest) = loadFromFiles rest) ∧
    (loadFromFiles ((p, FileOutcome.ioFailure) :: rest) = loadFromFiles rest) ∧
    (∀ cfg, loadFromFiles ((p, FileOutcome.parsed cfg) :: rest) = .ok cfg) ∧
    (loadFromFiles ([] : List (String × FileOutcome)) = .ok {}) :=
  ⟨fun _ => rfl, fun _ => rfl, rfl, rfl, fun _ => rfl, rfl⟩

/-- C4 counterexample: `loadConfig` called on a manager already holding a
configuration, against a world whose config file has a JSON syntax error,
throws — yet the cache afterwards still holds the stale configuration, not
the empty (UNLOADED) state the claim requires after every throwing call. -/
theorem loadConfig_failure_keeps_stale_cache :
    (loadedManager.loadConfig badJsonWorld).1 =
      .error ⟨"Invalid JSON in configuration file /work/.documenter.json: Unexpected token"⟩ ∧
    (loadedManager.loadConfig badJsonWorld).2.config = some staleConfig ∧
    some staleConfig ≠ (none : Option DocumenterConfig) := by
  refine ⟨rfl, rfl, by simp⟩

/-- C4 (amended): whenever `loadConfig()` throws, the manager's cache field
is exactly what it was before the call — in particular a load failing from
the UNLOADED state leaves the cache empty, and no partial cache is ever
written; the cache is populated (with the built configuration) only on a
successful build, and `reset()` unconditionally clears it. -/
theorem loadConfig_failure_cache_unchanged (m : ConfigManager) (w : World) :
    (∀ err, (m.loadConfig w).1 = .error err → (m.loadConfig w).2 = m) ∧
    (m.config = none → ∀ err, (m.loadConfig w).1 = .error err →
      (m.loadConfig w).2.config = none) ∧
    (∀ cfg, (m.loadConfig w).1 = .ok cfg → (m.loadConfig w).2.config = some cfg) ∧
    (m.reset.config = none) := by
  rcases hl : loadConfigResult w with err0 | cfg0
  · refine ⟨fun err h => ?_, fun hm err h => ?_, fun cfg h => ?_, rfl⟩
    · simp [ConfigManager.loadConfig, hl]
    · simp [ConfigManager.loadConfig, hl, hm]
    · simp [ConfigManager.loadConfig, hl] at h
  · refine ⟨fun err h => ?_, fun hm err h => ?_, fun cfg h => ?_, rfl⟩
    · simp [ConfigManager.loadConfig, hl] at h
    · simp [ConfigManager.loadConfig, hl] at h
    · simp [ConfigManager.loadConfig, hl] at h ⊢
      rw [h]

/-- C4 witness: the failing load of the counterexample world leaves the
loaded manager's cache field untouched. -/
theorem loadConfig_failure_cache_unchanged_witness :
    (loadedManager.loadConfig badJsonWorld).2 = loadedManager :=
  (loadConfig_failure_cache_unchanged loadedManager badJsonWorld).1
    ⟨"Invalid JSON in configuration file /work/.documenter.json: Unexpected token"⟩ rfl

/-- C5: `getConfig()` is idempotent with respect to caching: with a cached
configuration it returns exactly that configuration and the unchanged
manager, independently of the world (so no environment or file is
re-read); with an empty cache it delegates to `loadConfig`; and after any
successful `getConfig` a second call — under any world — returns the
identical configuration with no state change. -/
theorem getConfig_idempotent (m : ConfigManager) (w w2 : World) :
    (∀ cfg, m.config = some cfg → m.getConfig w = (.ok cfg, m)) ∧
    (m.config = none → m.getConfig w = m.loadConfig w) ∧
    (∀ cfg, (m.getConfig w).1 = .ok cfg →
      ((m.getConfig w).2.getConfig w2).1 = .ok cfg ∧
      ((m.getConfig w).2.getConfig w2).2 = (m.getConfig w).2) := by
  refine ⟨fun cfg h => by simp [ConfigManager.getConfig, h],
    fun h => by simp [ConfigManager.getConfig, h], fun cfg h => ?_⟩
  rcases hm : m.config with _ | c
  · rcases hl : loadConfigResult w with err0 | cfg0
    · simp [ConfigManager.getConfig, ConfigManager.loadConfig, hm, hl] at h
    · simp [ConfigManager.getConfig, ConfigManager.loadConfig, hm, hl] at h ⊢
      simp [h]
  · simp [ConfigManager.getConfig, hm] at h ⊢
    simp [h]

/-- C5 witness: a manager holding `staleConfig` returns it unchanged even
against a world whose config file would fail to load. -/
theorem getConfig_idempotent_witness :
    loadedManager.getConfig badJsonWorld = (.ok staleConfig, loadedManager) :=
  (getConfig_idempotent loadedManager badJsonWorld badJsonWorld).1 staleConfig rfl

/-- C6: `sanitizeConfigForLogging` is a pure function of the configuration
alone (it is modelled without any manager state, which it neither consults
nor mutates, and its argument is immutable): with a truthy (non-empty) API
key it returns the shallow copy whose key field is the fixed redaction
marker, with an absent or empty key it returns the configuration as-is, and
every field other than the API key is always unchanged. -/
theorem sanitizeConfigForLogging_redacts (config : DocumenterConfig) :
    (strTruthy config.openai_api_key = true →
      (sanitizeConfigForLogging config).openai_api_key = some redactionMarker ∧
      sanitizeConfigForLogging config = { config with openai_api_key := some redactionMarker }) ∧
    (strTruthy config.openai_api_key = false → sanitizeConfigForLogging config = config) ∧
    (sanitizeConfigForLogging config).provider = config.provider ∧
    (sanitizeConfigForLogging config).openai_model = config.openai_model ∧
    (sanitizeConfigForLogging config).lmstudio_endpoint = config.lmstudio_endpoint ∧
    (sanitizeConfigForLogging config).lmstudio_model = config.lmstudio_model ∧
    (sanitizeConfigForLogging config).max_conversation_history =
      config.max_conversation_history ∧
    (sanitizeConfigForLogging config).default_output_dir = config.default_output_dir ∧
    (sanitizeConfigForLogging config).timeout = config.timeout := by
  unfold sanitizeConfigForLogging
  by_cases h : strTruthy config.openai_api_key <;> simp [h]

/-- C6 witness: the example configuration with key `sk-test` is redacted to
the marker. -/
theorem sanitizeConfigForLogging_redacts_witness :
    (sanitizeConfigForLogging exampleOpenaiConfig).openai_api_key = some redactionMarker :=
  ((sanitizeConfigForLogging_redacts exampleOpenaiConfig).1 (by decide)).1

/-- C7: a malformed numeric environment value — one on which `parseInt`
fails or yields a non-positive number, such as `abc` or `-5` — never throws
(`withEnvironment` is a total function) and leaves the corresponding
accumulator field exactly as the earlier layers left it, for both
`MAX_CONVERSATION_HISTORY` and `LLM_TIMEOUT`. -/
theorem malformed_numeric_env_ignored (b : ConfigBuilder) (e : Env) :
    (∀ s, e.MAX_CONVERSATION_HISTORY = some s → wellFormedPositive s = false →
      (b.withEnvironment e).config.max_conversation_history =
        b.config.max_conversation_history) ∧
    (∀ s, e.LLM_TIMEOUT = some s → wellFormedPositive s = false →
      (b.withEnvironment e).config.timeout = b.config.timeout) := by
  have key : ∀ s, wellFormedPositive s = false → positiveIntEnv (some s) = none := by
    intro s hs
    unfold wellFormedPositive at hs
    have ht : truthyEnv (some s) = if s.isEmpty then none else some s := rfl
    unfold positiveIntEnv
    rw [ht]
    split
    · rfl
    · simp only [Option.some_bind]
      cases hj : jsParseInt s
      · simp [hj]
      · rw [hj] at hs
        simp only [decide_eq_false_iff_not] at hs
        simp [hj, hs]
  constructor
  · intro s hset hmal
    simp [ConfigBuilder.withEnvironment, spread, envPartial, hset, key s hmal,
      none_orElse_left]
  · intro s hset hmal
    simp [ConfigBuilder.withEnvironment, spread, envPartial, hset, key s hmal,
      none_orElse_left]

/-- C7 witness: with `MAX_CONVERSATION_HISTORY=abc` and `LLM_TIMEOUT=-5` over
the defaults layer, both fields keep their prior values. -/
theorem malformed_numeric_env_ignored_witness :
    ((ConfigBuilder.mk {}).withDefaults.withEnvironment
        malformedNumericEnv).config.max_conversation_history =
      (ConfigBuilder.mk {}).withDefaults.config.max_conversation_history ∧
    ((ConfigBuilder.mk {}).withDefaults.withEnvironment malformedNumericEnv).config.timeout =
      (ConfigBuilder.mk {}).withDefaults.config.timeout :=
  ⟨(malformed_numeric_env_ignored (ConfigBuilder.mk {}).withDefaults malformedNumericEnv).1
      "abc" rfl (by decide),
    (malformed_numeric_env_ignored (ConfigBuilder.mk {}).withDefaults malformedNumericEnv).2
      "-5" rfl (by decide)⟩

/-- C8 counterexample: a config file selecting lmstudio with an
explicitly empty endpoint string builds successfully (the empty string is
falsy, so the URL check is skipped), yet the returned configuration's
endpoint does not parse as a URL. -/
theorem build_lmstudio_empty_endpoint_not_url :
    (((ConfigBuilder.mk {}).withDefaults.withEnvironment {}).withFile
        emptyEndpointFile).build = .ok emptyEndpointConfig ∧
    emptyEndpointConfig.provider = Provider.lmstudio ∧
    canParseURL emptyEndpointConfig.lmstudio_endpoint = false :=
  ⟨rfl, rfl, rfl⟩

/-- C8 (amended): every configuration returned by `build()` whose provider
is lmstudio and whose endpoint is non-empty (truthy) has an endpoint that
parses as a valid URL; an empty endpoint bypasses the check. -/
theorem build_lmstudio_truthy_endpoint_valid_url (b : ConfigBuilder)
    (cfg : DocumenterConfig) (hbuild : b.build = .ok cfg)
    (hp : cfg.provider = Provider.lmstudio)
    (hne : cfg.lmstudio_endpoint.isEmpty = false) :
    canParseURL cfg.lmstudio_endpoint = true := by
  have hreq := (build_ok_parts _ _ hbuild).2
  unfold validateProviderRequirements at hreq
  rw [hp] at hreq
  by_cases hurl : canParseURL cfg.lmstudio_endpoint
  · exact hurl
  · simp [hne, hurl] at hreq

/-- C8 witness: selecting lmstudio through the file layer over the default
endpoint yields a configuration whose endpoint is a valid URL. -/
theorem build_lmstudio_truthy_endpoint_valid_url_witness :
    canParseURL lmstudioDefaultConfig.lmstudio_endpoint = true :=
  build_lmstudio_truthy_endpoint_valid_url lmstudioBuilder lmstudioDefaultConfig rfl rfl rfl

/-- C9: the summary projection of `getConfigSummary` does not depend on the
secret API key (two configurations differing only in the key project to the
identical summary), and it consists exactly of the provider string, the
effective model chosen by provider branch, the working directory, and the
endpoint — present only when the provider is lmstudio and the endpoint is
non-empty. -/
theorem configSummary_no_secret_dependence (cfg : DocumenterConfig)
    (k1 k2 : Option String) (wd : String) :
    configSummary { cfg with openai_api_key := k1 } wd =
      configSummary { cfg with openai_api_key := k2 } wd ∧
    (configSummary cfg wd).workingDir = wd ∧
    (configSummary cfg wd).provider = cfg.provider.toStr ∧
    (cfg.provider = Provider.openai → (configSummary cfg wd).endpoint = none) ∧
    (cfg.lmstudio_endpoint.isEmpty = true → (configSummary cfg wd).endpoint = none) ∧
    (cfg.provider = Provider.lmstudio → cfg.lmstudio_endpoint.isEmpty = false →
      (configSummary cfg wd).endpoint = some cfg.lmstudio_endpoint) ∧
    (cfg.provider = Provider.lmstudio → (configSummary cfg wd).model =
      (if cfg.lmstudio_model.isEmpty then "local-model" else cfg.lmstudio_model)) ∧
    (cfg.provider = Provider.openai → (configSummary cfg wd).model =
      (if cfg.openai_model.isEmpty then "gpt-4o-mini" else cfg.openai_model)) := by
  refine ⟨rfl, rfl, ?_, ?_, ?_, ?_, ?_, ?_⟩
  · cases hcp : cfg.provider
    · simp [configSummary, hcp, Provider.toStr]
    · simp [configSummary, hcp, Provider.toStr]
      rfl
  · intro hp
    simp [configSummary, hp]
  · intro he
    simp [configSummary, he]
  · intro hp hne
    simp [configSummary, hp, hne]
  · intro hp
    simp [configSummary, hp]
  · intro hp
    simp [configSummary, hp]

/-- C9 witness: the summary of the example openai configuration carries no
endpoint. -/
theorem configSummary_no_secret_dependence_witness :
    (configSummary exampleOpenaiConfig "/work").endpoint = none :=
  (configSummary_no_secret_dependence exampleOpenaiConfig (some "sk-test") none
    "/work").2.2.2.1 rfl

/-- C10: `withEnvironment` treats a recognized environment variable set to
the empty string as absent: for every recognized variable the empty-string
value never overwrites the corresponding accumulator field, so a field set
by an earlier layer cannot be cleared or emptied through the environment
layer. -/
theorem empty_env_vars_treated_absent (b : ConfigBuilder) (e : Env) :
    (e.LLM_PROVIDER = some "" →
      (b.withEnvironment e).config.provider = b.config.provider) ∧
    (e.OPENAI_API_KEY = some "" →
      (b.withEnvironment e).config.openai_api_key = b.config.openai_api_key) ∧
    (e.OPENAI_MODEL = some "" →
      (b.withEnvironment e).config.openai_model = b.config.openai_model) ∧
    (e.LMSTUDIO_ENDPOINT = some "" →
      (b.withEnvironment e).config.lmstudio_endpoint = b.config.lmstudio_endpoint) ∧
    (e.LMSTUDIO_MODEL = some "" →
      (b.withEnvironment e).config.lmstudio_model = b.config.lmstudio_model) ∧
    (e.MAX_CONVERSATION_HISTORY = some "" →
      (b.withEnvironment e).config.max_conversation_history =
        b.config.max_conversation_history) ∧
    (e.DEFAULT_OUTPUT_DIR = some "" →
      (b.withEnvironment e).config.default_output_dir = b.config.default_output_dir) ∧
    (e.LLM_TIMEOUT = some "" →
      (b.withEnvironment e).config.timeout = b.config.timeout) := by
  have h1 : truthyEnv (some "") = none := rfl
  have h2 : positiveIntEnv (some "") = none := rfl
  refine ⟨fun h => ?_, fun h => ?_, fun h => ?_, fun h => ?_, fun h => ?_, fun h => ?_,
    fun h => ?_, fun h => ?_⟩ <;>
    simp [ConfigBuilder.withEnvironment, spread, envPartial, h, h1, h2, none_orElse_left]

/-- C10 witness: an environment with every recognized variable set to the
empty string leaves the defaulted provider untouched. -/
theorem empty_env_vars_treated_absent_witness :
    ((ConfigBuilder.mk {}).withDefaults.withEnvironment allEmptyEnv).config.provider =
      (ConfigBuilder.mk {}).withDefaults.config.provider :=
  (empty_env_vars_treated_absent (ConfigBuilder.mk {}).withDefaults allEmptyEnv).1 rfl
